import Mathlib

/-!
Verification development for the LLM backend-client layer
(`kwaiagents/llms/clients.py`): message/prompt formatters, history
threading, and the per-client error behaviour, shallowly embedded in Lean.

Modelling conventions:
* Python strings are `String`; a conversation history is a list of
  (query, response) pairs, oldest first.
* The single outbound transport call of each `chat` method is modelled by a
  transport oracle passed as a function argument; its `Except.error` outcome
  stands for a raised transport/JSON exception.
* A Python function that can raise to its caller is embedded as an
  `Except String _` returning function whose `.error` payload names the
  Python exception class; a function that cannot raise is embedded total.
* JSON response envelopes are a small inductive `JVal`; subscripting a
  missing key/index is `Option` failure (a Python KeyError/IndexError).
-/

namespace KwaiAgents

/-- A conversation history: (query, response) pairs, oldest first. -/
abbrev History := List (String × String)

/-- One entry of the structured-chat (OpenAI-style) message list. -/
structure ChatMsg where
  role : String
  content : String
deriving DecidableEq, Repr

/-- The per-turn loop body of `make_gpt_messages`: each history turn
contributes a user entry then an assistant entry. -/
def gptHistoryMsgs : History → List ChatMsg
  | [] => []
  | (q, a) :: rest => ⟨"user", q⟩ :: ⟨"assistant", a⟩ :: gptHistoryMsgs rest

/-- `make_gpt_messages(query, system, history)` from clients.py: an optional
leading system entry (only when `system` is truthy, i.e. non-empty), the
history turns, then a final user entry with the current query. -/
def make_gpt_messages (query system : String) (history : History) : List ChatMsg :=
  (if system ≠ "" then [⟨"system", system⟩] else []) ++
    gptHistoryMsgs history ++ [⟨"user", query⟩]

/-- One entry of the structured-parts (Gemini-style) message list. -/
structure GMsg where
  role : String
  parts : List String
deriving DecidableEq, Repr

/-- The per-turn loop body of `make_gemini_messages`: each history turn
contributes a user entry then a model entry, each with a singleton parts
list. -/
def geminiHistoryMsgs : History → List GMsg
  | [] => []
  | (q, a) :: rest => ⟨"user", [q]⟩ :: ⟨"model", [a]⟩ :: geminiHistoryMsgs rest

/-- `make_gemini_messages(query, system, history)` from clients.py.  The
function opens with `assert not system`, so a non-empty system prompt raises
AssertionError to the caller; otherwise it returns the alternating
user/model entries followed by a final user entry with the query. -/
def make_gemini_messages (query system : String) (history : History) :
    Except String (List GMsg) :=
  if system ≠ "" then .error "AssertionError"
  else .ok (geminiHistoryMsgs history ++ [⟨"user", [query]⟩])

/-- Does the character list `pat` occur contiguously at the head of `s`? -/
def startsWithSeq : List Char → List Char → Bool
  | _, [] => true
  | [], _ :: _ => false
  | c :: cs, p :: ps => c == p && startsWithSeq cs ps

/-- Does the character list `pat` occur contiguously anywhere in `s`?
This models Python substring containment. -/
def containsSeq : List Char → List Char → Bool
  | [], pat => startsWithSeq [] pat
  | c :: cs, pat => startsWithSeq (c :: cs) pat || containsSeq cs pat

/-- Python's case-sensitive substring test `pat in s` on strings. -/
def strContains (s pat : String) : Bool :=
  containsSeq s.toList pat.toList

/-- The loop of `FastChatClient.make_prompt`: at `turn_idx == 0` the system
text is appended first, then every turn contributes
`"User:" + q + "\nAssistant" + r + "\n"`. -/
def fastChatLoop (system : String) : Nat → History → String
  | _, [] => ""
  | turn_idx, (q, r) :: rest =>
    (if turn_idx = 0 then system else "") ++
      ("User:" ++ q ++ "\nAssistant" ++ r ++ "\n") ++
      fastChatLoop system (turn_idx + 1) rest

/-- `FastChatClient.make_prompt(query, system, history)` (dialect A): the
loop runs over `history + [(query, "")]`, the synthetic unanswered turn.
(The source's `if not history: history = list()` is the identity on our
model, and its in-loop rebinding of `query` is dead code.) -/
def make_prompt (query system : String) (history : History) : String :=
  fastChatLoop system 0 (history ++ [(query, "")])

/-- The loop of `FastChatClient.make_baichuan_prompt`: at `turn_idx == 0`
the system text is appended first, then every turn contributes
`"<reserved_106>" + q + "<reserved_107>" + r`. -/
def baichuanLoop (system : String) : Nat → History → String
  | _, [] => ""
  | turn_idx, (q, r) :: rest =>
    (if turn_idx = 0 then system else "") ++
      ("<reserved_106>" ++ q ++ "<reserved_107>" ++ r) ++
      baichuanLoop system (turn_idx + 1) rest

/-- `FastChatClient.make_baichuan_prompt(query, system, history)`
(dialect B). -/
def make_baichuan_prompt (query system : String) (history : History) : String :=
  baichuanLoop system 0 (history ++ [(query, "")])

/-- The loop of `FastChatClient.make_qwen_prompt`: at `turn_idx == 0` the
tag pair wrapping the system text is appended first, then every turn
contributes the im_start/im_end wrapped user and assistant texts.  The
source's `response = r if r else ''` is kept verbatim (it is the identity
on strings). -/
def qwenLoop (system : String) : Nat → History → String
  | _, [] => ""
  | turn_idx, (q, r) :: rest =>
    (if turn_idx = 0 then "<|im_start|>" ++ system ++ "<|im_end|>\n" else "") ++
      ("<|im_start|>user\n" ++ q ++ "<|im_end|>\n<|im_start|>assistant\n" ++
        (if r = "" then "" else r) ++ "<|im_end|>\n") ++
      qwenLoop system (turn_idx + 1) rest

/-- `FastChatClient.make_qwen_prompt(query, system, history)` (dialect C). -/
def make_qwen_prompt (query system : String) (history : History) : String :=
  qwenLoop system 0 (history ++ [(query, "")])

/-- The per-turn text of dialect A with no system injection; used to state
where the system text can occur inside `make_prompt` output. -/
def promptTurnsA : History → String
  | [] => ""
  | (q, r) :: rest => ("User:" ++ q ++ "\nAssistant" ++ r ++ "\n") ++ promptTurnsA rest

/-- The per-turn text of dialect B with no system injection. -/
def promptTurnsB : History → String
  | [] => ""
  | (q, r) :: rest => ("<reserved_106>" ++ q ++ "<reserved_107>" ++ r) ++ promptTurnsB rest

/-- The per-turn text of dialect C with no system injection. -/
def promptTurnsC : History → String
  | [] => ""
  | (q, r) :: rest =>
    ("<|im_start|>user\n" ++ q ++ "<|im_end|>\n<|im_start|>assistant\n" ++
      (if r = "" then "" else r) ++ "<|im_end|>\n") ++ promptTurnsC rest

/-- The dialect dispatch of `FastChatClient.chat` (lines 174-179): substring
test for "baichuan" first, then "qwen", else the default template. -/
def fastChatPrompt (model query system : String) (history : History) : String :=
  if strContains model "baichuan" then make_baichuan_prompt query system history
  else if strContains model "qwen" then make_qwen_prompt query system history
  else make_prompt query system history

/-- The JSON request body of `FastChatClient.chat`.  Sampling fields are
exact rationals since they are literal constants in the source. -/
structure FastChatBody where
  model : String
  prompt : String
  temperature : Rat
  top_p : Rat
  top_k : Nat
  max_tokens : Nat
deriving DecidableEq, Repr

/-- The `data` dict built by `FastChatClient.chat` (lines 180-187): model
id, prompt, and four hardcoded sampling parameters. -/
def fastChatData (model prompt : String) : FastChatBody :=
  { model := model, prompt := prompt, temperature := 0.1, top_p := 0.75,
    top_k := 40, max_tokens := 512 }

/-- The full outbound request body of one `FastChatClient.chat` call.  The
caller-supplied `temperature` and `stop` arguments are in scope, exactly as
in the source's signature, but the body is built without them. -/
def fastChatRequest (model query system : String) (history : History)
    (temperature : Rat) (stop : String) : FastChatBody :=
  fastChatData model (fastChatPrompt model query system history)

/-- A JSON value, for response envelopes. -/
inductive JVal where
  | jstr (s : String)
  | jnum (n : Int)
  | jarr (xs : List JVal)
  | jobj (fields : List (String × JVal))

/-- Python `value[key]` on a JSON object; `none` is a raised
KeyError/TypeError. -/
def JVal.getField : JVal → String → Option JVal
  | .jobj fields, key => fields.lookup key
  | _, _ => none

/-- Python `value[i]` on a JSON array; `none` is a raised
IndexError/TypeError. -/
def JVal.getIdx : JVal → Nat → Option JVal
  | .jarr xs, i => xs.get? i
  | _, _ => none

/-- Read a JSON leaf as text; `none` models a non-text leaf where the code
expects the response text. -/
def JVal.asString : JVal → Option String
  | .jstr s => some s
  | _ => none

/-- The unwrapping chain `response['choices'][0]['message']['content']` of
`OpenAIClient.chat`; any missing step is a raised exception, `none` here. -/
def extractOpenAIText (response : JVal) : Option String :=
  (response.getField "choices").bind fun c =>
    (c.getIdx 0).bind fun c0 =>
      (c0.getField "message").bind fun m =>
        (m.getField "content").bind fun t => t.asString

/-- The unwrapping chain `response['choices'][0]['text']` of
`FastChatClient.chat`. -/
def extractFastChatText (response : JVal) : Option String :=
  (response.getField "choices").bind fun c =>
    (c.getIdx 0).bind fun c0 =>
      (c0.getField "text").bind fun t => t.asString

/-- The `try/except` of `OpenAIClient.chat`: a transport error or a failed
unwrap is caught and resolved to the empty string. -/
def openAIResponseText (outcome : Except Unit JVal) : String :=
  match outcome with
  | .error _ => ""
  | .ok response =>
    match extractOpenAIText response with
    | some t => t
    | none => ""

/-- Did the outbound call or the envelope unwrap of `OpenAIClient.chat`
fail? -/
def openAIFailed : Except Unit JVal → Bool
  | .error _ => true
  | .ok response => (extractOpenAIText response).isNone

/-- `OpenAIClient.chat(query, history, system, temperature, stop)`.  The
transport oracle maps the built message list to the outcome of the single
`ChatCompletion.create` round trip.  Every failure is contained, so the
embedding is total: it returns the resolved text and
`history[:] + [[query, response_text]]`. -/
def openAIChat (transport : List ChatMsg → Except Unit JVal)
    (query : String) (history : History) (system : String) : String × History :=
  let msgs := make_gpt_messages query system history
  let response_text := openAIResponseText (transport msgs)
  (response_text, history ++ [(query, response_text)])

/-- The hosted-generative backend's response object: `text` is the `.text`
accessor, whose `none` case models the attribute raising on a blocked or
empty generation. -/
structure GenResponse where
  text : Option String
deriving DecidableEq, Repr

/-- The second `try/except` of `GeminiClient.chat`: an unreadable `.text`
is caught and resolved to the empty string. -/
def geminiResponseText (response : GenResponse) : String :=
  match response.text with
  | some t => t
  | none => ""

/-- `GeminiClient.chat(query, history, system, temperature, stop)`.  Three
ways it can raise to the caller, hence the `Except` result:
* `make_gemini_messages` runs before any `try` and raises AssertionError on
  a non-empty system prompt;
* if `generate_content` raises, the handler's first statement
  `print(response.prompt_feedback)` reads the local `response` before any
  assignment to it, so the handler itself raises UnboundLocalError;
* otherwise the call is answered, an unreadable result degrades to the
  empty string, and `(response_text, history[:] + [[query, response_text]])`
  is returned. -/
def geminiChat (transport : List GMsg → Except Unit GenResponse)
    (query : String) (history : History) (system : String) :
    Except String (String × History) :=
  match make_gemini_messages query system history with
  | .error e => .error e
  | .ok msgs =>
    match transport msgs with
    | .error _ => .error "UnboundLocalError"
    | .ok response =>
      let response_text := geminiResponseText response
      .ok (response_text, history ++ [(query, response_text)])

/-- `FastChatClient.chat(query, history, system, temperature, stop)` for a
client constructed with `model`.  The method has no `try/except`: a
transport/JSON failure of the single `requests.post` round trip and a
missing `choices[0].text` field both raise to the caller. -/
def fastChatChat (transport : FastChatBody → Except Unit JVal)
    (model query : String) (history : History) (system : String)
    (temperature : Rat) (stop : String) : Except String (String × History) :=
  let data := fastChatRequest model query system history temperature stop
  match transport data with
  | .error _ => .error "ConnectionError"
  | .ok response =>
    match extractFastChatText response with
    | none => .error "KeyError"
    | some t => .ok (t, history ++ [(query, t)])

/-- The role pattern claimed for the structured-parts output: 2n+1 roles
strictly alternating user, model, user, ..., starting and ending with
"user".  Spec-side characterization used only to state the shape claim. -/
def specAltRoles : Nat → List String
  | 0 => ["user"]
  | n + 1 => "user" :: "model" :: specAltRoles n

/-- At any index past the first, the dialect-A loop never injects the
system text: it coincides with the system-free turn concatenation. -/
theorem fastChatLoop_succ (s : String) (l : History) (i : Nat) :
    fastChatLoop s (i + 1) l = promptTurnsA l := by
  induction l generalizing i with
  | nil => rfl
  | cons t rest ih =>
    obtain ⟨q, r⟩ := t
    simp [fastChatLoop, promptTurnsA, ih, String.empty_append]

/-- Dialect A output decomposes as the system text followed by the
system-free turn concatenation. -/
theorem make_prompt_decomp (query system : String) (history : History) :
    make_prompt query system history =
      system ++ promptTurnsA (history ++ [(query, "")]) := by
  cases history with
  | nil =>
    simp [make_prompt, fastChatLoop, promptTurnsA, String.append_empty,
      String.append_assoc]
  | cons t rest =>
    obtain ⟨q, r⟩ := t
    simp [make_prompt, fastChatLoop, promptTurnsA, fastChatLoop_succ,
      String.append_assoc]

/-- At any index past the first, the dialect-B loop never injects the
system text. -/
theorem baichuanLoop_succ (s : String) (l : History) (i : Nat) :
    baichuanLoop s (i + 1) l = promptTurnsB l := by
  induction l generalizing i with
  | nil => rfl
  | cons t rest ih =>
    obtain ⟨q, r⟩ := t
    simp [baichuanLoop, promptTurnsB, ih, String.empty_append]

/-- Dialect B output decomposes as the system text followed by the
system-free turn concatenation. -/
theorem make_baichuan_prompt_decomp (query system : String) (history : History) :
    make_baichuan_prompt query system history =
      system ++ promptTurnsB (history ++ [(query, "")]) := by
  cases history with
  | nil =>
    simp [make_baichuan_prompt, baichuanLoop, promptTurnsB, String.append_empty,
      String.append_assoc]
  | cons t rest =>
    obtain ⟨q, r⟩ := t
    simp [make_baichuan_prompt, baichuanLoop, promptTurnsB, baichuanLoop_succ,
      String.append_assoc]

/-- At any index past the first, the dialect-C loop never injects the
system tag pair. -/
theorem qwenLoop_succ (s : String) (l : History) (i : Nat) :
    qwenLoop s (i + 1) l = promptTurnsC l := by
  induction l generalizing i with
  | nil => rfl
  | cons t rest ih =>
    obtain ⟨q, r⟩ := t
    simp [qwenLoop, promptTurnsC, ih, String.empty_append]

/-- Dialect C output decomposes as the tag-wrapped system text followed by
the system-free turn concatenation. -/
theorem make_qwen_prompt_decomp (query system : String) (history : History) :
    make_qwen_prompt query system history =
      "<|im_start|>" ++ system ++ "<|im_end|>\n" ++
        promptTurnsC (history ++ [(query, "")]) := by
  cases history with
  | nil =>
    simp [make_qwen_prompt, qwenLoop, promptTurnsC, String.append_empty,
      String.append_assoc]
  | cons t rest =>
    obtain ⟨q, r⟩ := t
    simp [make_qwen_prompt, qwenLoop, promptTurnsC, qwenLoop_succ,
      String.append_assoc]

/-- C3: the structured-chat formatter on system "S", a two-turn history and
query "q3" yields exactly the six role-tagged entries
system, user(q1), assistant(r1), user(q2), assistant(r2), user(q3) in that
order, and with an empty system the leading system entry is omitted. -/
theorem claim3_gpt_message_order (S q1 r1 q2 r2 q3 : String) :
    (S ≠ "" → make_gpt_messages q3 S [(q1, r1), (q2, r2)] =
      [⟨"system", S⟩, ⟨"user", q1⟩, ⟨"assistant", r1⟩, ⟨"user", q2⟩,
        ⟨"assistant", r2⟩, ⟨"user", q3⟩]) ∧
    make_gpt_messages q3 "" [(q1, r1), (q2, r2)] =
      [⟨"user", q1⟩, ⟨"assistant", r1⟩, ⟨"user", q2⟩, ⟨"assistant", r2⟩,
        ⟨"user", q3⟩] := by
  constructor
  · intro hS
    simp [make_gpt_messages, gptHistoryMsgs, hS]
  · simp [make_gpt_messages, gptHistoryMsgs]

/-- Witness for C3 at system "S" and concrete turns. -/
theorem claim3_gpt_message_order_witness :
    make_gpt_messages "q3" "S" [("q1", "r1"), ("q2", "r2")] =
      [⟨"system", "S"⟩, ⟨"user", "q1"⟩, ⟨"assistant", "r1"⟩, ⟨"user", "q2"⟩,
        ⟨"assistant", "r2"⟩, ⟨"user", "q3"⟩] :=
  (claim3_gpt_message_order "S" "q1" "r1" "q2" "r2" "q3").1 (by decide)

/-- C4: the structured-parts formatter asserts an empty system prompt: on
any non-empty system it raises AssertionError to the caller, and on an
empty system it succeeds. -/
theorem claim4_gemini_system_precondition (q sys : String) (h : History) :
    (sys ≠ "" → make_gemini_messages q sys h = .error "AssertionError") ∧
    ∃ msgs, make_gemini_messages q "" h = .ok msgs := by
  constructor
  · intro hs
    simp [make_gemini_messages, hs]
  · exact ⟨geminiHistoryMsgs h ++ [⟨"user", [q]⟩], by simp [make_gemini_messages]⟩

/-- Witness for C4 at a concrete non-empty system. -/
theorem claim4_gemini_system_precondition_witness :
    make_gemini_messages "q" "x" [] = .error "AssertionError" ∧
    ∃ msgs, make_gemini_messages "q" "" ([] : History) = .ok msgs :=
  ⟨(claim4_gemini_system_precondition "q" "x" []).1 (by decide),
    (claim4_gemini_system_precondition "q" "x" []).2⟩

/-- C5: flattened-dialect selection is a case-sensitive substring match on
the model id with fixed priority: "baichuan" selects dialect B, else
"qwen" selects dialect C, else dialect A; a model id containing both
substrings selects dialect B. -/
theorem claim5_dialect_selection (model q s : String) (h : History) :
    (strContains model "baichuan" = true →
      fastChatPrompt model q s h = make_baichuan_prompt q s h) ∧
    (strContains model "baichuan" = false → strContains model "qwen" = true →
      fastChatPrompt model q s h = make_qwen_prompt q s h) ∧
    (strContains model "baichuan" = false → strContains model "qwen" = false →
      fastChatPrompt model q s h = make_prompt q s h) ∧
    (strContains model "baichuan" = true → strContains model "qwen" = true →
      fastChatPrompt model q s h = make_baichuan_prompt q s h) := by
  refine ⟨fun hb => ?_, fun hb hq => ?_, fun hb hq => ?_, fun hb _ => ?_⟩ <;>
    simp [fastChatPrompt, hb]
  · simp [hq]
  · simp [hq]

/-- Witness for C5: a baichuan model, a qwen model, an unmatched model, and
a model containing both substrings (priority goes to dialect B). -/
theorem claim5_dialect_selection_witness :
    fastChatPrompt "kagentlms_baichuan2_13b_mat" "q" "s" [] =
      make_baichuan_prompt "q" "s" [] ∧
    fastChatPrompt "qwen-7b" "q" "s" [] = make_qwen_prompt "q" "s" [] ∧
    fastChatPrompt "gpt-3.5-turbo" "q" "s" [] = make_prompt "q" "s" [] ∧
    fastChatPrompt "baichuan-qwen" "q" "s" [] = make_baichuan_prompt "q" "s" [] :=
  ⟨(claim5_dialect_selection "kagentlms_baichuan2_13b_mat" "q" "s" []).1 (by decide),
    (claim5_dialect_selection "qwen-7b" "q" "s" []).2.1 (by decide) (by decide),
    (claim5_dialect_selection "gpt-3.5-turbo" "q" "s" []).2.2.1 (by decide) (by decide),
    (claim5_dialect_selection "baichuan-qwen" "q" "s" []).2.2.2 (by decide) (by decide)⟩

/-- C6: dialect A on query "hi", system "SYS" and empty history is the
system text followed by one synthetic turn with empty response. -/
theorem claim6_dialect_a_example :
    make_prompt "hi" "SYS" [] = "SYS" ++ "User:hi\nAssistant\n" := by
  decide

/-- C8: in every flattened dialect the system text occurs only in the
prefix emitted ahead of the first turn, never for later turns: the output
is that prefix followed by a turn concatenation (promptTurnsA/B/C) that
does not depend on the system text at all. -/
theorem claim8_system_injected_once (q s : String) (h : History) :
    make_prompt q s h = s ++ promptTurnsA (h ++ [(q, "")]) ∧
    make_baichuan_prompt q s h = s ++ promptTurnsB (h ++ [(q, "")]) ∧
    make_qwen_prompt q s h =
      "<|im_start|>" ++ s ++ "<|im_end|>\n" ++ promptTurnsC (h ++ [(q, "")]) :=
  ⟨make_prompt_decomp q s h, make_baichuan_prompt_decomp q s h,
    make_qwen_prompt_decomp q s h⟩

/-- C10: dialect C emits the system tag pair even for an empty system, so
with system "" every output starts with the literal
im_start/im_end pair followed by the system-independent turns. -/
theorem claim10_qwen_empty_system_tags (q : String) (h : History) :
    ∃ rest, make_qwen_prompt q "" h = "<|im_start|><|im_end|>\n" ++ rest ∧
      rest = promptTurnsC (h ++ [(q, "")]) := by
  refine ⟨promptTurnsC (h ++ [(q, "")]), ?_, rfl⟩
  rw [make_qwen_prompt_decomp]
  rfl

/-- The structured-parts history entries come in user/model pairs, so their
count is twice the history length. -/
theorem geminiHistoryMsgs_length (h : History) :
    (geminiHistoryMsgs h).length = 2 * h.length := by
  induction h with
  | nil => rfl
  | cons t rest ih =>
    obtain ⟨a, b⟩ := t
    simp only [geminiHistoryMsgs, List.length_cons, ih]
    omega

/-- The roles of the structured-parts output follow the alternating
user/model pattern ending in "user". -/
theorem geminiHistoryMsgs_roles (q : String) (h : History) :
    (geminiHistoryMsgs h ++ [(⟨"user", [q]⟩ : GMsg)]).map (fun m => m.role) =
      specAltRoles h.length := by
  induction h with
  | nil => rfl
  | cons t rest ih =>
    obtain ⟨a, b⟩ := t
    simpa [geminiHistoryMsgs, specAltRoles] using ih

/-- Every structured-parts history entry carries a one-element parts list. -/
theorem geminiHistoryMsgs_parts (h : History) :
    ∀ m ∈ geminiHistoryMsgs h, ∃ t, m.parts = [t] := by
  induction h with
  | nil => intro m hm; exact absurd hm (List.not_mem_nil m)
  | cons t rest ih =>
    obtain ⟨a, b⟩ := t
    intro m hm
    rcases List.mem_cons.mp hm with rfl | hm2
    · exact ⟨a, rfl⟩
    · rcases List.mem_cons.mp hm2 with rfl | hm3
      · exact ⟨b, rfl⟩
      · exact ih m hm3

/-- C9: with an empty system prompt the structured-parts formatter returns
exactly 2*len(history)+1 entries whose roles strictly alternate
user, model, ..., starting and ending with "user"; every entry holds a
one-element parts list, and the final entry's single part is the query. -/
theorem claim9_gemini_message_shape (q : String) (h : History) :
    ∃ msgs, make_gemini_messages q "" h = .ok msgs ∧
      msgs.length = 2 * h.length + 1 ∧
      msgs.map (fun m => m.role) = specAltRoles h.length ∧
      (∀ m ∈ msgs, ∃ t, m.parts = [t]) ∧
      msgs.getLast? = some ⟨"user", [q]⟩ := by
  refine ⟨geminiHistoryMsgs h ++ [⟨"user", [q]⟩], ?_, ?_,
    geminiHistoryMsgs_roles q h, ?_, List.getLast?_concat _⟩
  · rfl
  · simp [geminiHistoryMsgs_length]
  · intro m hm
    rcases List.mem_append.mp hm with hmem | hmem
    · exact geminiHistoryMsgs_parts h m hmem
    · obtain rfl := List.mem_singleton.mp hmem
      exact ⟨q, rfl⟩

/-- Witness for C9 on a one-turn history: three entries with roles
user, model, user, and the last entry holds the query. -/
theorem claim9_gemini_message_shape_witness :
    ∃ msgs, make_gemini_messages "q" "" [("a", "b")] = .ok msgs ∧
      msgs.length = 3 ∧
      msgs.map (fun m => m.role) = ["user", "model", "user"] ∧
      (∃ t, (⟨"user", ["q"]⟩ : GMsg).parts = [t]) ∧
      msgs.getLast? = some ⟨"user", ["q"]⟩ := by
  obtain ⟨msgs, h1, h2, h3, h4, h5⟩ := claim9_gemini_message_shape "q" [("a", "b")]
  have hmem : (⟨"user", ["q"]⟩ : GMsg) ∈ msgs :=
    List.mem_of_mem_getLast? (Option.mem_def.mpr h5)
  exact ⟨msgs, h1, by simpa using h2, by simpa [specAltRoles] using h3,
    h4 _ hmem, h5⟩

/-- C7: the self-hosted request body does not depend on the caller's
temperature and stop arguments, and carries the fixed sampling parameters
temperature=0.1, top_p=0.75, top_k=40, max_tokens=512. -/
theorem claim7_fixed_sampling_params (model q s : String) (h : History)
    (t₁ t₂ : Rat) (st₁ st₂ : String) :
    fastChatRequest model q s h t₁ st₁ = fastChatRequest model q s h t₂ st₂ ∧
    (fastChatRequest model q s h t₁ st₁).temperature = 1 / 10 ∧
    (fastChatRequest model q s h t₁ st₁).top_p = 3 / 4 ∧
    (fastChatRequest model q s h t₁ st₁).top_k = 40 ∧
    (fastChatRequest model q s h t₁ st₁).max_tokens = 512 := by
  refine ⟨rfl, ?_, ?_, rfl, rfl⟩
  · show (0.1 : Rat) = 1 / 10
    norm_num
  · show (0.75 : Rat) = 3 / 4
    norm_num

/-- Appending one turn grows the history by exactly one entry, keeps the
old entries as an unchanged initial segment, and makes the turn the last
entry. -/
theorem appended_history_facts (h : History) (q r : String) :
    (h ++ [(q, r)]).length = h.length + 1 ∧
    (h ++ [(q, r)]).take h.length = h ∧
    (h ++ [(q, r)]).getLast? = some (q, r) :=
  ⟨by simp, List.take_left h _, List.getLast?_concat _⟩

/-- C2: whenever any of the three chat methods returns, the returned
history is the input history (unmutated: the embedding is pure and the
source copies with history[:]) plus exactly one final turn holding the
query and the returned text. -/
theorem claim2_history_threading
    (tr : List ChatMsg → Except Unit JVal)
    (gtr : List GMsg → Except Unit GenResponse)
    (ftr : FastChatBody → Except Unit JVal)
    (model q s : String) (h : History) (temperature : Rat) (stop : String) :
    ((openAIChat tr q h s).2 = h ++ [(q, (openAIChat tr q h s).1)] ∧
      (openAIChat tr q h s).2.length = h.length + 1 ∧
      (openAIChat tr q h s).2.take h.length = h ∧
      (openAIChat tr q h s).2.getLast? = some (q, (openAIChat tr q h s).1)) ∧
    (∀ r nh, geminiChat gtr q h s = .ok (r, nh) →
      nh = h ++ [(q, r)] ∧ nh.length = h.length + 1 ∧
      nh.take h.length = h ∧ nh.getLast? = some (q, r)) ∧
    (∀ r nh, fastChatChat ftr model q h s temperature stop = .ok (r, nh) →
      nh = h ++ [(q, r)] ∧ nh.length = h.length + 1 ∧
      nh.take h.length = h ∧ nh.getLast? = some (q, r)) := by
  refine ⟨⟨rfl, (appended_history_facts h q _).1, (appended_history_facts h q _).2.1,
    (appended_history_facts h q _).2.2⟩, ?_, ?_⟩
  · intro r nh heq
    rcases hm : make_gemini_messages q s h with e | msgs
    · simp [geminiChat, hm] at heq
    · rcases hgt : gtr msgs with u | response
      · simp [geminiChat, hm, hgt] at heq
      · simp [geminiChat, hm, hgt] at heq
        obtain ⟨rfl, rfl⟩ := heq
        exact ⟨rfl, (appended_history_facts h q _).1,
          (appended_history_facts h q _).2.1, (appended_history_facts h q _).2.2⟩
  · intro r nh heq
    rcases hft : ftr (fastChatRequest model q s h temperature stop) with u | response
    · simp [fastChatChat, hft] at heq
    · rcases het : extractFastChatText response with _ | t
      · simp [fastChatChat, hft, het] at heq
      · simp [fastChatChat, hft, het] at heq
        obtain ⟨rfl, rfl⟩ := heq
        exact ⟨rfl, (appended_history_facts h q _).1,
          (appended_history_facts h q _).2.1, (appended_history_facts h q _).2.2⟩

/-- Witness for C2: one answered call per fallible client and one degraded
hosted-chat call, each growing a one-turn history to two turns. -/
theorem claim2_history_threading_witness :
    ([("a", "b"), ("q", "ans")] : History).length = [("a", "b")].length + 1 ∧
    ([("a", "b"), ("q", "ans")] : History).take 1 = [("a", "b")] ∧
    ([("a", "b"), ("q", "ans")] : History).getLast? = some ("q", "ans") ∧
    (openAIChat (fun _ => .error ()) "q" [("a", "b")] "").2 =
      [("a", "b"), ("q", "")] := by
  have hmain := claim2_history_threading (fun _ => .error ())
    (fun _ => .ok ⟨some "ans"⟩)
    (fun _ => .ok (.jobj [("choices", .jarr [.jobj [("text", .jstr "ans")]])]))
    "m" "q" "" [("a", "b")] 0 ""
  obtain ⟨ho, hg, hf⟩ := hmain
  obtain ⟨hg1, hg2, hg3, hg4⟩ := hg "ans" [("a", "b"), ("q", "ans")] rfl
  obtain ⟨hf1, hf2, hf3, hf4⟩ := hf "ans" [("a", "b"), ("q", "ans")] rfl
  exact ⟨hg2, hg3, hg4, ho.1⟩

/-- C1 counterexample: the self-hosted client has no error containment at
all — a failed transport raises to the caller instead of returning the
degraded pair — and the hosted-generative client's transport-error handler
itself raises (it reads the unbound local `response`). -/
theorem claim1_counterexample :
    fastChatChat (fun _ => .error ()) "m" "q" [] "" 0 "" =
      .error "ConnectionError" ∧
    fastChatChat (fun _ => .error ()) "m" "q" [] "" 0 "" ≠
      .ok ("", ([] : History) ++ [("q", "")]) ∧
    geminiChat (fun _ => .error ()) "q" [] "" = .error "UnboundLocalError" := by
  refine ⟨rfl, ?_, rfl⟩
  intro hc
  have h1 : fastChatChat (fun _ => .error ()) "m" "q" [] "" 0 "" =
      .error "ConnectionError" := rfl
  rw [h1] at hc
  exact Except.noConfusion hc

/-- C1 amended: the hosted-chat client contains every transport/unwrap
failure and returns exactly ("", history + [(query, "")]); the
hosted-generative client contains a blocked/unreadable result the same way
(given a successful transport and its empty-system precondition).  The
self-hosted client and the hosted-generative transport-failure path
propagate instead (see the counterexample). -/
theorem claim1_amended_containment (tr : List ChatMsg → Except Unit JVal)
    (q s : String) (h : History) :
    (openAIFailed (tr (make_gpt_messages q s h)) = true →
      openAIChat tr q h s = ("", h ++ [(q, "")])) ∧
    geminiChat (fun _ => .ok ⟨none⟩) q h "" = .ok ("", h ++ [(q, "")]) := by
  constructor
  · intro hfail
    have hresp : openAIResponseText (tr (make_gpt_messages q s h)) = "" := by
      rcases ho : tr (make_gpt_messages q s h) with u | resp
      · rfl
      · rw [ho] at hfail
        simp only [openAIFailed, Option.isNone_iff_eq_none] at hfail
        simp [openAIResponseText, hfail]
    simp only [openAIChat]
    rw [hresp]
  · rfl

/-- Witness for the amended C1: a concrete failed hosted-chat transport and
a concrete blocked hosted-generative result, both degrading to the empty
string with the query appended. -/
theorem claim1_amended_witness :
    openAIChat (fun _ => .error ()) "q" [] "s" = ("", [("q", "")]) ∧
    geminiChat (fun _ => .ok ⟨none⟩) "q" [] "" = .ok ("", [("q", "")]) := by
  have hmain := claim1_amended_containment (fun _ => .error ()) "q" "s" []
  exact ⟨hmain.1 (by decide), hmain.2⟩

end KwaiAgents
